import Mathlib

/-!
Shallow embedding of the carbonzipper HTTP boundary layer
(`cmd/carbonzipper/main.go`): the find/render/info handlers, the
response encoders, the stats folding, the startup checks and the
request-time bucketing.  Machine integers are modelled as `Int` with
explicit two's-complement reduction where the Go code converts between
widths; arrays are `List`s and an out-of-range array index is an
explicit `Option.none` (a Go runtime panic).
-/

namespace Carbonzipper

/-- Go's `int32(n)` conversion for a 64-bit `n`: two's-complement
truncation modulo `2^32` into the range `[-2^31, 2^31)`. -/
def toInt32 (n : Int) : Int :=
  let r := n.emod (2 ^ 32)
  if r < 2 ^ 31 then r else r - 2 ^ 32

/-- Go's `int64` wraparound, modelling overflow of `int64` arithmetic
such as `50 * (1 << uint(bucket))` for large shift counts. -/
def wrap64 (n : Int) : Int :=
  let r := n.emod (2 ^ 64)
  if r < 2 ^ 63 then r else r - 2 ^ 64

/-- Decimal digit run: `some` of the value when the character list is a
non-empty run of ASCII digits, `none` otherwise. -/
def parseDigits (cs : List Char) : Option Nat :=
  if cs = [] then none
  else if cs.all (fun c => c.isDigit) then
    some (cs.foldl (fun a c => a * 10 + (c.toNat - 48)) 0)
  else none

/-- Go's `strconv.Atoi` on a 64-bit platform: optional single sign
followed by decimal digits, value within the `int64` range; every other
input (empty, stray characters, out of `int64` range) is an error,
which the handlers treat as a rejection. -/
def goAtoi (s : String) : Option Int :=
  match s.toList with
  | [] => none
  | '+' :: rest =>
      (parseDigits rest).bind fun n =>
        if (n : Int) ≤ 2 ^ 63 - 1 then some (n : Int) else none
  | '-' :: rest =>
      (parseDigits rest).bind fun n =>
        if (n : Int) ≤ 2 ^ 63 then some (-(n : Int)) else none
  | cs =>
      (parseDigits cs).bind fun n =>
        if (n : Int) ≤ 2 ^ 63 - 1 then some (n : Int) else none

/-- Model of `zipper.Stats`: the per-call counter bag folded into the
process-wide counters by `sendStats`. -/
structure Stats where
  Timeouts : Int
  FindErrors : Int
  RenderErrors : Int
  InfoErrors : Int
  SearchRequests : Int
  SearchCacheHits : Int
  SearchCacheMisses : Int
  CacheMisses : Int
  CacheHits : Int
  deriving Repr, DecidableEq

/-- The process-wide `Metrics` expvar counters touched by the handlers
and by `sendStats`. -/
structure Metrics where
  Requests : Int
  Responses : Int
  Errors : Int
  FindRequests : Int
  FindErrors : Int
  SearchRequests : Int
  RenderRequests : Int
  RenderErrors : Int
  InfoRequests : Int
  InfoErrors : Int
  Timeouts : Int
  CacheMisses : Int
  CacheHits : Int
  SearchCacheMisses : Int
  SearchCacheHits : Int
  deriving Repr, DecidableEq

/-- Model of `sendStats`: adds every field of the per-call `Stats` once to the
correspondingly named process-wide counter. -/
def sendStats (m : Metrics) (s : Stats) : Metrics :=
  { m with
    Timeouts := m.Timeouts + s.Timeouts
    FindErrors := m.FindErrors + s.FindErrors
    RenderErrors := m.RenderErrors + s.RenderErrors
    InfoErrors := m.InfoErrors + s.InfoErrors
    SearchRequests := m.SearchRequests + s.SearchRequests
    SearchCacheHits := m.SearchCacheHits + s.SearchCacheHits
    SearchCacheMisses := m.SearchCacheMisses + s.SearchCacheMisses
    CacheMisses := m.CacheMisses + s.CacheMisses
    CacheHits := m.CacheHits + s.CacheHits }

/-- Model of the `zipper.CarbonSearch` configuration: prefix and backend address. -/
structure CarbonSearch where
  Prefix : String
  Backend : String
  deriving Repr, DecidableEq

/-- Line 638 of `main.go`:
`searchConfigured = len(config.CarbonSearch.Prefix) > 0 && len(config.CarbonSearch.Backend) > 0`. -/
def searchConfigured (cs : CarbonSearch) : Bool :=
  decide (0 < cs.Prefix.length) && decide (0 < cs.Backend.length)

/-- The slice of the process configuration that the modelled startup
sequence reads (after YAML unmarshalling succeeded). -/
structure Config where
  Backends : List String
  Buckets : Nat
  Listen : String
  CarbonSearch : CarbonSearch
  deriving Repr, DecidableEq

/-- The state constructed by a successful startup: the zipper (engine)
with its backend list, the process-wide search-routing flag, and the
`timeBuckets` array length (`config.Buckets + 1`). -/
structure MainState where
  zipperBackends : List String
  searchRouting : Bool
  timeBucketsLen : Nat
  listen : String
  deriving Repr, DecidableEq

/-- The startup sequence of `main` from the point where the YAML config
has been loaded: the empty-backends check aborts fatally before the
logger reconfiguration, the `searchConfigured` assignment, the
`timeBuckets` allocation and the zipper construction; `loggerOk` models
whether `zapwriter.ApplyConfig(config.Logger)` succeeds.  A returned
`.error` is a `logger.Fatal`: no zipper is constructed and the HTTP
server never starts. -/
def mainStartup (c : Config) (loggerOk : Bool) : Except String MainState :=
  if c.Backends.length == 0 then .error "no Backends loaded -- exiting"
  else if !loggerOk then .error "Failed to apply config"
  else .ok
    { zipperBackends := c.Backends
      searchRouting := searchConfigured c.CarbonSearch
      timeBucketsLen := c.Buckets + 1
      listen := c.Listen }

/-- Model of `pb3.GlobMatch`: one find result, carrying exactly a path and a
leaf flag (its JSON and protobuf encodings expose only these two
fields). -/
structure GlobMatch where
  Path : String
  IsLeaf : Bool
  deriving Repr, DecidableEq

/-- Model of `intervalset.IntervalSet{Start, End}` as built by
`encodeFindResponse` (field `End` renamed `EndT`, `end` being a Lean
keyword). -/
structure IntervalSet where
  Start : Int
  EndT : Int
  deriving Repr, DecidableEq

/-- One entry of the pickle find response: the graphite-web 0.9.x shape
`{metric_path, isLeaf}` or the 1.0 shape `{is_leaf, path, intervals}`. -/
inductive PickleFindEntry where
  | compat09 (metricPath : String) (isLeaf : Bool)
  | v1 (isLeaf : Bool) (path : String) (intervals : IntervalSet)
  deriving Repr, DecidableEq

/-- The wire shapes `encodeFindResponse` can produce; `unknown` is the
fall-through of the format switch (nothing written, no error). -/
inductive FindEncoded where
  | protobuf (name : String) (matchList : List GlobMatch)
  | json (matchList : List GlobMatch)
  | pickle (entries : List PickleFindEntry)
  | unknown
  deriving Repr, DecidableEq

/-- Model of `encodeFindResponse`: dispatch on the `format` form value; the
pickle branch computes `now := int32(time.Now().Unix() + 60)` (here
`nowUnix` is `time.Now().Unix()`) and attaches
`IntervalSet{Start: 0, End: now}` to every match unless the
graphite-web 0.9 compatibility flag is set. -/
def encodeFindResponse (format query : String) (compat09 : Bool)
    (nowUnix : Int) (metrics : List GlobMatch) : FindEncoded :=
  if format = "protobuf" ∨ format = "protobuf3" then
    .protobuf query metrics
  else if format = "json" then
    .json metrics
  else if format = "" ∨ format = "pickle" then
    let now := toInt32 (nowUnix + 60)
    .pickle (metrics.map fun metric =>
      if compat09 then
        .compat09 metric.Path metric.IsLeaf
      else
        .v1 metric.IsLeaf metric.Path { Start := 0, EndT := now })
  else .unknown

/-- Model of `pb3.FetchResponse`: one series of a render reply. -/
structure FetchMetric where
  Name : String
  StartTime : Int
  StopTime : Int
  StepTime : Int
  Values : List Float
  IsAbsent : List Bool
  deriving Repr

/-- One position of the serialized value sequence: a numeric value, or
the encoding's non-numeric sentinel (`nil`, encoded as JSON `null`, or
`pickle.None{}`). -/
inductive RenderValue where
  | value (v : Float)
  | jsonNull
  | pickleNone
  deriving Repr

/-- The inner loop of `createRenderResponse`: walk `Values` by index,
emitting `missing` where `IsAbsent[i]` is set and the value otherwise;
`none` models the Go index-out-of-range panic when `IsAbsent` is
shorter than `Values`. -/
def buildValues (missing : RenderValue) :
    List Float → List Bool → Option (List RenderValue)
  | [], _ => some []
  | _ :: _, [] => none
  | v :: vs, a :: as' =>
      (buildValues missing vs as').map fun rest =>
        (if a then missing else .value v) :: rest

/-- One entry of the JSON/pickle render response: the map
`{"start", "step", "end", "name", "values"}` (key `end` stored in field
`EndT`). -/
structure RenderEntry where
  Start : Int
  Step : Int
  EndT : Int
  Name : String
  values : List RenderValue
  deriving Repr

/-- Model of `createRenderResponse`: one response entry per series, with
`start := StartTime`, `step := StepTime`, `end := StopTime` and the
value sequence produced by `buildValues`. -/
def createRenderResponse (metrics : List FetchMetric)
    (missing : RenderValue) : Option (List RenderEntry) :=
  match metrics with
  | [] => some []
  | metric :: rest =>
      match buildValues missing metric.Values metric.IsAbsent,
            createRenderResponse rest missing with
      | some pvalues, some es =>
          some ({ Start := metric.StartTime
                  Step := metric.StepTime
                  EndT := metric.StopTime
                  Name := metric.Name
                  values := pvalues } :: es)
      | _, _ => none

/-- The wire shapes of a render reply. -/
inductive RenderEncoded where
  | protobufR (metrics : List FetchMetric)
  | jsonR (entries : List RenderEntry)
  | pickleR (entries : List RenderEntry)
  | unknownR
  deriving Repr

/-- The format switch of `renderHandler`: protobuf marshals the
response directly, JSON uses `createRenderResponse(metrics, nil)`,
pickle (and the empty format) uses
`createRenderResponse(metrics, pickle.None{})`; `none` models the
panic propagated out of `createRenderResponse`. -/
def renderEncode (format : String) (metrics : List FetchMetric) :
    Option RenderEncoded :=
  if format = "protobuf" ∨ format = "protobuf3" then
    some (.protobufR metrics)
  else if format = "json" then
    (createRenderResponse metrics .jsonNull).map .jsonR
  else if format = "" ∨ format = "pickle" then
    (createRenderResponse metrics .pickleNone).map .pickleR
  else some .unknownR

/-- A reduced `pb3.ServerInfo` payload (enough structure to have a zero
value and distinguishable values). -/
structure ServerInfo where
  name : String
  maxRetention : Int
  deriving Repr, DecidableEq

/-- Model of `pb3.ServerInfoResponse`: `Server` string plus `Info` pointer
(`none` is the nil pointer of a zero-valued entry). -/
structure ServerInfoResponse where
  Server : String
  Info : Option ServerInfo
  deriving Repr, DecidableEq

/-- The protobuf branch of `infoHandler`:

`result.Responses = make([]pb3.ServerInfoResponse, len(infos))`
allocates `len(infos)` zero-valued entries, and the loop *appends*
after them.  Inside the loop `r.Info = &i` stores a pointer to the loop
variable `i`, which Go (pre-1.22) shares across iterations; by the time
`result.Marshal()` dereferences it, it holds the value of the last
iteration, so every appended entry encodes that last metadata value. -/
def buildInfoResponses (infos : List (String × ServerInfo)) :
    List ServerInfoResponse :=
  let lastInfo := (infos.getLast?).map (fun p => p.2)
  List.replicate infos.length { Server := "", Info := none } ++
    infos.map fun p => { Server := p.1, Info := lastInfo }

/-- The wire shapes of an info reply (`unknownI`: no switch case
matches, nothing written). -/
inductive InfoEncoded where
  | protobufI (responses : List ServerInfoResponse)
  | jsonI (infos : List (String × ServerInfo))
  | unknownI
  deriving Repr, DecidableEq

/-- The format switch of `infoHandler`. -/
def infoEncode (format : String) (infos : List (String × ServerInfo)) :
    InfoEncoded :=
  if format = "protobuf" ∨ format = "protobuf3" then
    .protobufI (buildInfoResponses infos)
  else if format = "" ∨ format = "json" then
    .jsonI infos
  else .unknownI

/-- The form values of a find request. -/
structure FindReq where
  query : String
  format : String
  deriving Repr, DecidableEq

/-- The outcome of `config.zipper.Find` (an oracle from the handler's
point of view): metric list, per-call stats, and the error; the stats
are meaningful even when `err` is set. -/
structure ZFindOut where
  metrics : List GlobMatch
  stats : Stats
  err : Option String
  deriving Repr, DecidableEq

/-- What `findHandler` did: HTTP status written (200 when only the
body was written), final counter state, the query passed to
`zipper.Find` (`none` would mean the engine was never invoked), and
the encoded body if one was produced. -/
structure FindRes where
  status : Nat
  metricsOut : Metrics
  engineQuery : Option String
  body : Option FindEncoded
  deriving Repr, DecidableEq

/-- Model of `findHandler`: bumps `Requests`/`FindRequests`, invokes
`zipper.Find` on the `query` form value unconditionally (there is no
empty-query check), folds the stats, and answers 500 on an engine or
marshalling error and 200 otherwise.  `encodeOk` models whether
writing/marshalling the response succeeds. -/
def findHandler (req : FindReq) (zOut : ZFindOut) (encodeOk compat09 : Bool)
    (nowUnix : Int) (m0 : Metrics) : FindRes :=
  let m1 := { m0 with
    Requests := m0.Requests + 1
    FindRequests := m0.FindRequests + 1 }
  let m2 := sendStats m1 zOut.stats
  match zOut.err with
  | some _ =>
      { status := 500
        metricsOut := { m2 with Errors := m2.Errors + 1 }
        engineQuery := some req.query
        body := none }
  | none =>
      let enc := encodeFindResponse req.format req.query compat09 nowUnix
        zOut.metrics
      if encodeOk then
        { status := 200
          metricsOut := { m2 with Responses := m2.Responses + 1 }
          engineQuery := some req.query
          body := some enc }
      else
        { status := 500
          metricsOut := { m2 with Errors := m2.Errors + 1 }
          engineQuery := some req.query
          body := none }

/-- The form values of a render request (`fromS`/`untilS` are the raw
`from`/`until` strings). -/
structure RenderReq where
  target : String
  format : String
  fromS : String
  untilS : String
  deriving Repr, DecidableEq

/-- The arguments the handler passes to `zipper.Render`. -/
structure RenderCall where
  target : String
  from32 : Int
  until32 : Int
  deriving Repr, DecidableEq

/-- The outcome of `config.zipper.Render`. -/
structure ZRenderOut where
  metrics : List FetchMetric
  stats : Stats
  err : Option String
  deriving Repr

/-- What `renderHandler` did; `call = none` means `zipper.Render` was
never invoked, `panicked` models the index-out-of-range panic escaping
`createRenderResponse`. -/
structure RenderRes where
  status : Nat
  metricsOut : Metrics
  call : Option RenderCall
  body : Option RenderEncoded
  panicked : Bool
  deriving Repr

/-- Model of `renderHandler`, in source order: bump `Requests`/`RenderRequests`;
`req.ParseForm()` failure ⇒ 400; `strconv.Atoi` failure on `from`,
then on `until` ⇒ 400; empty `target` ⇒ 400 — all before the engine is
invoked; then `zipper.Render(target, int32(from), int32(until))`,
`sendStats`, engine error ⇒ 500, and the format switch.  `parseFormOk`
and `encodeOk` model the request-body parse and response-write
outcomes. -/
def renderHandler (req : RenderReq) (parseFormOk : Bool) (zOut : ZRenderOut)
    (encodeOk : Bool) (m0 : Metrics) : RenderRes :=
  let m1 := { m0 with
    Requests := m0.Requests + 1
    RenderRequests := m0.RenderRequests + 1 }
  if !parseFormOk then
    { status := 400, metricsOut := { m1 with Errors := m1.Errors + 1 }
      call := none, body := none, panicked := false }
  else
    match goAtoi req.fromS with
    | none =>
        { status := 400, metricsOut := { m1 with Errors := m1.Errors + 1 }
          call := none, body := none, panicked := false }
    | some fromV =>
        match goAtoi req.untilS with
        | none =>
            { status := 400, metricsOut := { m1 with Errors := m1.Errors + 1 }
              call := none, body := none, panicked := false }
        | some untilV =>
            if req.target = "" then
              { status := 400
                metricsOut := { m1 with Errors := m1.Errors + 1 }
                call := none, body := none, panicked := false }
            else
              let call : RenderCall :=
                { target := req.target
                  from32 := toInt32 fromV
                  until32 := toInt32 untilV }
              let m2 := sendStats m1 zOut.stats
              match zOut.err with
              | some _ =>
                  { status := 500
                    metricsOut := { m2 with Errors := m2.Errors + 1 }
                    call := some call, body := none, panicked := false }
              | none =>
                  match renderEncode req.format zOut.metrics with
                  | none =>
                      { status := 0, metricsOut := m2
                        call := some call, body := none, panicked := true }
                  | some enc =>
                      if encodeOk then
                        { status := 200
                          metricsOut := { m2 with Responses := m2.Responses + 1 }
                          call := some call, body := some enc
                          panicked := false }
                      else
                        { status := 500
                          metricsOut := { m2 with Errors := m2.Errors + 1 }
                          call := some call, body := none, panicked := false }

/-- The form values of an info request. -/
structure InfoReq where
  target : String
  format : String
  deriving Repr, DecidableEq

/-- The outcome of `config.zipper.Info`: the backend-identity →
metadata mapping (in iteration order), stats and error. -/
structure ZInfoOut where
  infos : List (String × ServerInfo)
  stats : Stats
  err : Option String
  deriving Repr, DecidableEq

/-- What `infoHandler` did; `engineTarget = none` means `zipper.Info`
was never invoked. -/
structure InfoRes where
  status : Nat
  metricsOut : Metrics
  engineTarget : Option String
  body : Option InfoEncoded
  deriving Repr, DecidableEq

/-- Model of `infoHandler`, in source order: bump `Requests`/`InfoRequests`;
`req.ParseForm()` failure ⇒ 400; empty `target` ⇒ 400 — both before
the engine is invoked; then `zipper.Info`, `sendStats`, engine error ⇒
500, and the format switch. -/
def infoHandler (req : InfoReq) (parseFormOk : Bool) (zOut : ZInfoOut)
    (encodeOk : Bool) (m0 : Metrics) : InfoRes :=
  let m1 := { m0 with
    Requests := m0.Requests + 1
    InfoRequests := m0.InfoRequests + 1 }
  if !parseFormOk then
    { status := 400, metricsOut := { m1 with Errors := m1.Errors + 1 }
      engineTarget := none, body := none }
  else if req.target = "" then
    { status := 400, metricsOut := { m1 with Errors := m1.Errors + 1 }
      engineTarget := none, body := none }
  else
    let m2 := sendStats m1 zOut.stats
    match zOut.err with
    | some _ =>
        { status := 500, metricsOut := { m2 with Errors := m2.Errors + 1 }
          engineTarget := some req.target, body := none }
    | none =>
        let enc := infoEncode req.format zOut.infos
        if encodeOk then
          { status := 200
            metricsOut := { m2 with Responses := m2.Responses + 1 }
            engineTarget := some req.target, body := some enc }
        else
          { status := 500
            metricsOut := { m2 with Errors := m2.Errors + 1 }
            engineTarget := some req.target, body := none }

/-- The bucket-selection loop of `bucketRequestTimes`, fuel-indexed:
`bucketLoopAux ms fuel k` runs Go's
`for bucket = k; bucket < k + fuel; bucket++` with body
`if ms >= 50*(1<<uint(bucket)) { bucket--; break }`, in `int64`
arithmetic (`wrap64` models the shift and the product).  The initial
call uses `fuel = config.Buckets + 1`, `k = 0`, matching the source
loop bound `bucket < config.Buckets+1`. -/
def bucketLoopAux (ms : Int) : Nat → Nat → Int
  | 0, k => (k : Int)
  | fuel + 1, k =>
      if wrap64 (50 * wrap64 (2 ^ k)) ≤ ms then (k : Int) - 1
      else bucketLoopAux ms fuel (k + 1)

/-- Model of `atomic.AddInt64(&timeBuckets[i], 1)` on the `timeBuckets` slice:
`none` models the index-out-of-range runtime panic. -/
def listIncr (tb : List Int) (i : Int) : Option (List Int) :=
  if 0 ≤ i ∧ i < (tb.length : Int) then
    some (tb.set i.toNat (tb.getD i.toNat 0 + 1))
  else none

/-- Model of `bucketRequestTimes` on a request that took `ms` milliseconds
(`ms = t.Nanoseconds() / 1e6`), with `B = config.Buckets` and `tb` the
`timeBuckets` slice (allocated with length `B + 1` at startup): select
a bucket with the loop, then increment `timeBuckets[bucket]` when
`bucket < B` and the overflow bucket `timeBuckets[B]` (logging a slow
request) otherwise. -/
def bucketRequestTimes (ms : Int) (B : Nat) (tb : List Int) :
    Option (List Int) :=
  let bucket := bucketLoopAux ms (B + 1) 0
  if bucket < (B : Int) then listIncr tb bucket
  else listIncr tb (B : Int)

/-- An all-zero per-call stats bag (concrete fixture for witnesses). -/
def statsZero : Stats :=
  { Timeouts := 0, FindErrors := 0, RenderErrors := 0, InfoErrors := 0
    SearchRequests := 0, SearchCacheHits := 0, SearchCacheMisses := 0
    CacheMisses := 0, CacheHits := 0 }

/-- An all-zero process-wide counter state (concrete fixture). -/
def metricsZero : Metrics :=
  { Requests := 0, Responses := 0, Errors := 0, FindRequests := 0
    FindErrors := 0, SearchRequests := 0, RenderRequests := 0
    RenderErrors := 0, InfoRequests := 0, InfoErrors := 0, Timeouts := 0
    CacheMisses := 0, CacheHits := 0, SearchCacheMisses := 0
    SearchCacheHits := 0 }

/-- A successful, empty `zipper.Render` outcome (concrete fixture). -/
def zrEmpty : ZRenderOut :=
  { metrics := [], stats := statsZero, err := none }

/-- A distinct-valued per-call stats bag (concrete fixture). -/
def statsNine : Stats :=
  { Timeouts := 1, FindErrors := 2, RenderErrors := 3, InfoErrors := 4
    SearchRequests := 5, SearchCacheHits := 6, SearchCacheMisses := 7
    CacheMisses := 8, CacheHits := 9 }

/-- The per-call stats were folded exactly once into the process-wide
counters: each of the nine correspondingly named counters grew by
exactly the per-call field. -/
def statsFolded (m0 m1 : Metrics) (s : Stats) : Prop :=
  m1.Timeouts = m0.Timeouts + s.Timeouts ∧
  m1.FindErrors = m0.FindErrors + s.FindErrors ∧
  m1.RenderErrors = m0.RenderErrors + s.RenderErrors ∧
  m1.InfoErrors = m0.InfoErrors + s.InfoErrors ∧
  m1.SearchRequests = m0.SearchRequests + s.SearchRequests ∧
  m1.SearchCacheHits = m0.SearchCacheHits + s.SearchCacheHits ∧
  m1.SearchCacheMisses = m0.SearchCacheMisses + s.SearchCacheMisses ∧
  m1.CacheMisses = m0.CacheMisses + s.CacheMisses ∧
  m1.CacheHits = m0.CacheHits + s.CacheHits

/-- Pointwise specification of one serialized value sequence `l` for
series `m`: same length as `Values`, the sentinel exactly at the
positions flagged absent and the numeric value elsewhere, and no
numeric value (in particular not zero) at any absent position. -/
def absentPointwise (sentinel : RenderValue) (m : FetchMetric)
    (l : List RenderValue) : Prop :=
  l.length = m.Values.length ∧
  (∀ (i : Nat) (v : Float) (a : Bool),
    m.Values[i]? = some v → m.IsAbsent[i]? = some a →
    l[i]? = some (if a then sentinel else RenderValue.value v)) ∧
  (∀ (i : Nat), m.IsAbsent[i]? = some true →
    ∀ (x : Float), l[i]? ≠ some (RenderValue.value x))

/-- A non-empty string is exactly one of positive length. -/
theorem strLengthPos (s : String) : 0 < s.length ↔ s ≠ "" := by
  have h1 : s.length = s.data.length := rfl
  rw [h1, List.length_pos]
  constructor
  · intro h he
    apply h
    rw [he]
  · intro h hd
    exact h (String.ext hd)

/-- C5: with an empty backend list the startup terminates fatally (the
"no Backends loaded" fatal) before the zipper is constructed or the
HTTP server starts — no `MainState` is ever produced — and with a
non-empty backend list startup proceeds past this check. -/
theorem claim_C5 (c : Config) (loggerOk : Bool) :
    (c.Backends = [] →
      mainStartup c loggerOk = .error "no Backends loaded -- exiting" ∧
      ∀ st, mainStartup c loggerOk ≠ .ok st) ∧
    (c.Backends ≠ [] →
      mainStartup c loggerOk ≠ .error "no Backends loaded -- exiting") := by
  constructor
  · intro h
    rw [mainStartup, h]
    simp
  · intro h
    rw [mainStartup]
    have hlen : (c.Backends.length == 0) = false := by
      simp [List.length_eq_zero, h]
    rw [hlen]
    cases loggerOk <;> simp

/-- Witness for C5 at two concrete configurations: one with no
backends (fatal before construction) and one with a backend
(proceeds past the check). -/
theorem claim_C5_witness :
    (mainStartup
        { Backends := [], Buckets := 10, Listen := ":8080",
          CarbonSearch := { Prefix := "", Backend := "" } } true =
      .error "no Backends loaded -- exiting") ∧
    (mainStartup
        { Backends := ["127.0.0.1:8080"], Buckets := 10, Listen := ":8080",
          CarbonSearch := { Prefix := "", Backend := "" } } true ≠
      .error "no Backends loaded -- exiting") :=
  ⟨((claim_C5 _ true).1 rfl).1, (claim_C5 _ true).2 (by decide)⟩

/-- C6: search routing is configured iff both the CarbonSearch prefix
and backend strings are non-empty, and the flag a successful startup
stores process-wide is exactly this computation. -/
theorem claim_C6 (cs : CarbonSearch) (c : Config) (loggerOk : Bool)
    (st : MainState) (hok : mainStartup c loggerOk = .ok st) :
    (searchConfigured cs = true ↔ (cs.Prefix ≠ "" ∧ cs.Backend ≠ "")) ∧
    st.searchRouting = searchConfigured c.CarbonSearch := by
  constructor
  · rw [searchConfigured]
    rw [Bool.and_eq_true, decide_eq_true_iff, decide_eq_true_iff,
      strLengthPos, strLengthPos]
  · rw [mainStartup] at hok
    by_cases h0 : c.Backends.length == 0
    · rw [if_pos h0] at hok
      cases hok
    · rw [if_neg h0] at hok
      cases hlog : loggerOk with
      | false => rw [hlog] at hok; simp at hok
      | true =>
          rw [hlog] at hok
          simp only [Bool.not_true, Bool.false_eq_true, if_false] at hok
          cases hok
          rfl

/-- Witness for C6: a concrete startup with both CarbonSearch fields
set stores `searchRouting = true`, and the iff holds at a concrete
configuration. -/
theorem claim_C6_witness :
    (searchConfigured { Prefix := "virt.ops.", Backend := "http://search" } =
        true ↔
      (("virt.ops." : String) ≠ "" ∧ ("http://search" : String) ≠ "")) ∧
    (MainState.mk ["127.0.0.1:8080"] true 11 ":9090").searchRouting =
      searchConfigured { Prefix := "virt.ops.", Backend := "http://search" } :=
  claim_C6 { Prefix := "virt.ops.", Backend := "http://search" }
    { Backends := ["127.0.0.1:8080"], Buckets := 10, Listen := ":9090",
      CarbonSearch := { Prefix := "virt.ops.", Backend := "http://search" } }
    true _ rfl

/-- C1 counterexample: a find request with an empty `query` form value
is NOT rejected by the boundary layer — `findHandler` invokes
`zipper.Find` with the empty string (and serves 200 when the engine
and the encoder succeed), refuting the claim for the Find operation. -/
theorem claim_C1_counterexample :
    (findHandler { query := "", format := "json" }
        { metrics := [], stats := statsZero, err := none } true false 0
        metricsZero).engineQuery = some "" ∧
    (findHandler { query := "", format := "json" }
        { metrics := [], stats := statsZero, err := none } true false 0
        metricsZero).status = 200 := by
  constructor <;> rfl

/-- C1 amended: a Render or Info request with an empty `target` form
value is rejected with HTTP 400 without invoking the engine, but a
Find request with an empty `query` always invokes `zipper.Find` (the
find boundary performs no emptiness check). -/
theorem claim_C1 (freq : FindReq) (rreq : RenderReq) (ireq : InfoReq)
    (zf : ZFindOut) (zr : ZRenderOut) (zi : ZInfoOut)
    (pfR pfI encF encR encI compat09 : Bool) (nowU : Int) (m0 : Metrics)
    (hr : rreq.target = "") (hi : ireq.target = "") :
    ((renderHandler rreq pfR zr encR m0).status = 400 ∧
      (renderHandler rreq pfR zr encR m0).call = none) ∧
    ((infoHandler ireq pfI zi encI m0).status = 400 ∧
      (infoHandler ireq pfI zi encI m0).engineTarget = none) ∧
    (findHandler freq zf encF compat09 nowU m0).engineQuery =
      some freq.query := by
  refine ⟨?_, ?_, ?_⟩
  · rw [renderHandler]
    cases pfR with
    | false => exact ⟨rfl, rfl⟩
    | true =>
        simp only [Bool.not_true, Bool.false_eq_true, if_false]
        cases goAtoi rreq.fromS with
        | none => exact ⟨rfl, rfl⟩
        | some fromV =>
            cases goAtoi rreq.untilS with
            | none => exact ⟨rfl, rfl⟩
            | some untilV =>
                simp [hr]
  · rw [infoHandler]
    cases pfI with
    | false => exact ⟨rfl, rfl⟩
    | true =>
        simp [hi]
  · rw [findHandler]
    cases zf.err with
    | some e => rfl
    | none => cases encF <;> rfl

/-- Witness for C1 (amended) at concrete requests: empty-target render
and info requests are rejected with 400 without an engine call, and a
find request with empty query reaches `zipper.Find`. -/
theorem claim_C1_witness :
    (("" : String) = "") ∧
    ((renderHandler { target := "", format := "json", fromS := "1",
                        untilS := "2" } true zrEmpty true metricsZero).status = 400 ∧
      (renderHandler { target := "", format := "json", fromS := "1",
                        untilS := "2" } true zrEmpty true metricsZero).call = none) ∧
    ((infoHandler { target := "", format := "json" } true
          { infos := [], stats := statsZero, err := none } true
          metricsZero).status = 400 ∧
      (infoHandler { target := "", format := "json" } true
          { infos := [], stats := statsZero, err := none } true
          metricsZero).engineTarget = none) ∧
    (findHandler { query := "a.b.*", format := "json" }
        { metrics := [], stats := statsZero, err := none } true false 0
        metricsZero).engineQuery = some "a.b.*" :=
  ⟨rfl,
    claim_C1 { query := "a.b.*", format := "json" }
      { target := "", format := "json", fromS := "1", untilS := "2" }
      { target := "", format := "json" }
      { metrics := [], stats := statsZero, err := none } zrEmpty
      { infos := [], stats := statsZero, err := none }
      true true true true true false 0 metricsZero rfl rfl⟩

/-- C7 counterexample: a render request whose `from` and `until` form
values both parse as decimal integers is nevertheless NOT passed to
`zipper.Render` when its `target` is empty — refuting the claim's
"otherwise passes both to zipper.Render". -/
theorem claim_C7_counterexample :
    goAtoi "1" = some 1 ∧ goAtoi "2" = some 2 ∧
    (renderHandler { target := "", format := "json", fromS := "1",
                        untilS := "2" } true zrEmpty true metricsZero).call = none ∧
    (renderHandler { target := "", format := "json", fromS := "1",
                        untilS := "2" } true zrEmpty true metricsZero).status = 400 := by
  refine ⟨by decide, by decide, rfl, rfl⟩

/-- C7 amended: assuming the request form parses, the boundary layer
parses `from` and `until` as decimal integers and rejects with HTTP
400 without invoking the engine when either fails to parse; when both
parse AND the target is non-empty it passes both to `zipper.Render` as
two's-complement-truncated int32 values. -/
theorem claim_C7 (reqBad reqGood : RenderReq) (zb zg : ZRenderOut)
    (eb eg : Bool) (m0 m1 : Metrics) (f u : Int)
    (hbad : goAtoi reqBad.fromS = none ∨ goAtoi reqBad.untilS = none)
    (hf : goAtoi reqGood.fromS = some f)
    (hu : goAtoi reqGood.untilS = some u)
    (ht : reqGood.target ≠ "") :
    ((renderHandler reqBad true zb eb m0).status = 400 ∧
      (renderHandler reqBad true zb eb m0).call = none) ∧
    (renderHandler reqGood true zg eg m1).call =
      some { target := reqGood.target, from32 := toInt32 f,
             until32 := toInt32 u } := by
  constructor
  · rw [renderHandler]
    simp only [Bool.not_true, Bool.false_eq_true, if_false]
    cases hbad with
    | inl h =>
        rw [h]
        exact ⟨rfl, rfl⟩
    | inr h =>
        cases hfa : goAtoi reqBad.fromS with
        | none => exact ⟨rfl, rfl⟩
        | some v =>
            rw [h]
            exact ⟨rfl, rfl⟩
  · rw [renderHandler]
    simp only [Bool.not_true, Bool.false_eq_true, if_false, hf, hu, ht,
      if_neg]
    cases zg.err with
    | some e => rfl
    | none =>
        cases henc : renderEncode reqGood.format zg.metrics with
        | none => rfl
        | some enc => cases eg <;> rfl

/-- Witness for C7 (amended) at concrete requests: `until = "xyz"`
fails to parse and is rejected 400 with no engine call; `from = "12"`,
`until = "34"`, non-empty target reaches `zipper.Render` with the
truncated values. -/
theorem claim_C7_witness :
    (goAtoi "12x" = none ∨ goAtoi "34" = none) ∧
    goAtoi "12" = some 12 ∧ goAtoi "34" = some 34 ∧
    (("a.b" : String) ≠ "") ∧
    ((renderHandler { target := "a.b", format := "json", fromS := "12x",
                        untilS := "34" } true zrEmpty true metricsZero).status = 400 ∧
      (renderHandler { target := "a.b", format := "json", fromS := "12x",
                        untilS := "34" } true zrEmpty true metricsZero).call = none) ∧
    (renderHandler { target := "a.b", format := "json", fromS := "12",
                        untilS := "34" } true zrEmpty true metricsZero).call =
      some { target := "a.b", from32 := toInt32 12, until32 := toInt32 34 } :=
  ⟨Or.inl (by decide), by decide, by decide, by decide,
    claim_C7 { target := "a.b", format := "json", fromS := "12x",
               untilS := "34" }
      { target := "a.b", format := "json", fromS := "12", untilS := "34" }
      zrEmpty zrEmpty true true metricsZero metricsZero 12 34
      (Or.inl (by decide)) (by decide) (by decide) (by decide)⟩

/-- C10 counterexample: a render request whose `from` parses as a
decimal integer outside the int32 range IS rejected (HTTP 400, no
engine call) when its `until` value fails to parse — refuting the
claim's "the boundary layer does not reject the request". -/
theorem claim_C10_counterexample :
    goAtoi "2147483648" = some 2147483648 ∧
    ¬((-(2 ^ 31) : Int) ≤ 2147483648 ∧ (2147483648 : Int) < 2 ^ 31) ∧
    (renderHandler { target := "a.b", format := "json",
                        fromS := "2147483648", untilS := "xyz" } true zrEmpty true
        metricsZero).status = 400 ∧
    (renderHandler { target := "a.b", format := "json",
                        fromS := "2147483648", untilS := "xyz" } true zrEmpty true
        metricsZero).call = none := by
  refine ⟨by decide, by decide, rfl, rfl⟩

/-- C10 amended: for a render request that otherwise reaches the
engine (form parses, both `from` and `until` parse as platform-int
decimals, non-empty target), a `from` or `until` value outside the
int32 range causes no rejection: the handler passes both values to
`zipper.Render` reduced modulo `2^32` into int32 (two's-complement
truncation). -/
theorem claim_C10 (req : RenderReq) (zOut : ZRenderOut) (encodeOk : Bool)
    (m0 : Metrics) (f u : Int)
    (hf : goAtoi req.fromS = some f) (hu : goAtoi req.untilS = some u)
    (hrange : (f < -(2 ^ 31) ∨ (2 ^ 31 : Int) ≤ f) ∨
      (u < -(2 ^ 31) ∨ (2 ^ 31 : Int) ≤ u))
    (ht : req.target ≠ "") :
    (renderHandler req true zOut encodeOk m0).status ≠ 400 ∧
    (renderHandler req true zOut encodeOk m0).call =
      some { target := req.target, from32 := toInt32 f,
             until32 := toInt32 u } ∧
    toInt32 f =
      (if f.emod (2 ^ 32) < 2 ^ 31 then f.emod (2 ^ 32)
       else f.emod (2 ^ 32) - 2 ^ 32) ∧
    toInt32 u =
      (if u.emod (2 ^ 32) < 2 ^ 31 then u.emod (2 ^ 32)
       else u.emod (2 ^ 32) - 2 ^ 32) := by
  refine ⟨?_, ?_, rfl, rfl⟩ <;>
    · rw [renderHandler]
      simp only [Bool.not_true, Bool.false_eq_true, if_false, hf, hu, ht,
        if_neg]
      cases zOut.err with
      | some e => simp
      | none =>
          cases henc : renderEncode req.format zOut.metrics with
          | none => simp
          | some enc => cases encodeOk <;> simp

/-- Witness for C10 (amended): `until = 2^31` (just outside int32, the
`from` value in range) with a well-formed request causes no rejection
and is passed through as `int32(-2^31)`. -/
theorem claim_C10_witness :
    goAtoi "0" = some 0 ∧ goAtoi "2147483648" = some 2147483648 ∧
    (((0 : Int) < -(2 ^ 31) ∨ (2 ^ 31 : Int) ≤ 0) ∨
      ((2147483648 : Int) < -(2 ^ 31) ∨ (2 ^ 31 : Int) ≤ 2147483648)) ∧
    (("a.b" : String) ≠ "") ∧
    ((renderHandler { target := "a.b", format := "json", fromS := "0",
                      untilS := "2147483648" } true zrEmpty true
          metricsZero).status ≠ 400 ∧
      (renderHandler { target := "a.b", format := "json", fromS := "0",
                       untilS := "2147483648" } true zrEmpty true
          metricsZero).call =
        some { target := "a.b", from32 := toInt32 0,
               until32 := toInt32 2147483648 } ∧
      toInt32 0 =
        (if (0 : Int).emod (2 ^ 32) < 2 ^ 31 then (0 : Int).emod (2 ^ 32)
         else (0 : Int).emod (2 ^ 32) - 2 ^ 32) ∧
      toInt32 2147483648 =
        (if (2147483648 : Int).emod (2 ^ 32) < 2 ^ 31 then
          (2147483648 : Int).emod (2 ^ 32)
        else (2147483648 : Int).emod (2 ^ 32) - 2 ^ 32)) :=
  ⟨by decide, by decide, Or.inr (Or.inr (by decide)), by decide,
    claim_C10 { target := "a.b", format := "json", fromS := "0",
                untilS := "2147483648" }
      zrEmpty true metricsZero 0 2147483648 (by decide) (by decide)
      (Or.inr (Or.inr (by decide))) (by decide)⟩

/-- C4: for every Find, Render, and Info call that reaches the engine,
the per-call `Stats` fields are each folded exactly once into the
correspondingly named process-wide counter — whatever the engine's
error outcome and whatever the encoder does afterwards. -/
theorem claim_C4 (freq : FindReq) (zf : ZFindOut) (encF compat09 : Bool)
    (nowU : Int) (rreq : RenderReq) (zr : ZRenderOut) (encR : Bool)
    (ireq : InfoReq) (zi : ZInfoOut) (encI : Bool) (m0 : Metrics)
    (f u : Int)
    (hf : goAtoi rreq.fromS = some f) (hu : goAtoi rreq.untilS = some u)
    (ht : rreq.target ≠ "") (hit : ireq.target ≠ "") :
    statsFolded m0 (findHandler freq zf encF compat09 nowU m0).metricsOut
      zf.stats ∧
    statsFolded m0 (renderHandler rreq true zr encR m0).metricsOut
      zr.stats ∧
    statsFolded m0 (infoHandler ireq true zi encI m0).metricsOut
      zi.stats := by
  refine ⟨?_, ?_, ?_⟩
  · rw [findHandler]
    cases zf.err with
    | some e => simp [statsFolded, sendStats]
    | none => cases encF <;> simp [statsFolded, sendStats]
  · rw [renderHandler]
    simp only [Bool.not_true, Bool.false_eq_true, if_false, hf, hu, ht,
      if_neg]
    cases zr.err with
    | some e => simp [statsFolded, sendStats]
    | none =>
        cases henc : renderEncode rreq.format zr.metrics with
        | none => simp [statsFolded, sendStats]
        | some enc => cases encR <;> simp [statsFolded, sendStats]
  · rw [infoHandler]
    simp only [Bool.not_true, Bool.false_eq_true, if_false, hit, if_neg]
    cases zi.err with
    | some e => simp [statsFolded, sendStats]
    | none => cases encI <;> simp [statsFolded, sendStats]

/-- Witness for C4 at a concrete non-zero stats bag, with the render
call succeeding and the find and info calls failing inside the
engine: all nine counters grew by exactly the per-call amounts. -/
theorem claim_C4_witness :
    goAtoi "12" = some 12 ∧ goAtoi "34" = some 34 ∧
    (("a.b" : String) ≠ "") ∧ (("c.d" : String) ≠ "") ∧
    (statsFolded metricsZero
      (findHandler { query := "a.*", format := "json" }
        { metrics := [], stats := statsNine,
          err := some "all backends failed" } true false
        0 metricsZero).metricsOut statsNine ∧
    statsFolded metricsZero
      (renderHandler { target := "a.b", format := "json", fromS := "12",
                       untilS := "34" } true zrEmpty true
        metricsZero).metricsOut zrEmpty.stats ∧
    statsFolded metricsZero
      (infoHandler { target := "c.d", format := "json" } true
        { infos := [], stats := statsZero, err := some "failed" } true
        metricsZero).metricsOut statsZero) :=
  ⟨by decide, by decide, by decide, by decide,
    claim_C4 { query := "a.*", format := "json" }
      { metrics := [], stats := statsNine,
        err := some "all backends failed" } true false 0
      { target := "a.b", format := "json", fromS := "12", untilS := "34" }
      zrEmpty true { target := "c.d", format := "json" }
      { infos := [], stats := statsZero, err := some "failed" } true
      metricsZero 12 34 (by decide) (by decide) (by decide) (by decide)⟩

/-- C2 counterexample: at Unix time 1000 the pickle (non-0.9-compat)
encoding attaches `IntervalSet{Start: 0, End: 1060}` to a match — the
upper bound is `now + 60`, not `now`, refuting "to now" as stated. -/
theorem claim_C2_counterexample :
    encodeFindResponse "pickle" "a.*" false 1000
        [{ Path := "a.b", IsLeaf := true }] =
      .pickle [.v1 true "a.b" { Start := 0, EndT := 1060 }] ∧
    (1060 : Int) ≠ 1000 := by
  refine ⟨by decide, by decide⟩

/-- C2 amended: JSON and protobuf find encodings carry each match as
the structured path/leaf listing only, while the pickle
(non-0.9-compat) encoding additionally attaches to every match the
fixed placeholder interval set from the beginning of time (start 0) to
sixty seconds past now (`int32(now + 60)`). -/
theorem claim_C2 (query fmt : String) (compat09 : Bool) (nowUnix : Int)
    (metrics : List GlobMatch) (hfmt : fmt = "" ∨ fmt = "pickle") :
    encodeFindResponse "json" query compat09 nowUnix metrics =
      .json metrics ∧
    encodeFindResponse "protobuf" query compat09 nowUnix metrics =
      .protobuf query metrics ∧
    encodeFindResponse "protobuf3" query compat09 nowUnix metrics =
      .protobuf query metrics ∧
    encodeFindResponse fmt query false nowUnix metrics =
      .pickle (metrics.map fun m =>
        .v1 m.IsLeaf m.Path { Start := 0, EndT := toInt32 (nowUnix + 60) }) := by
  refine ⟨by simp [encodeFindResponse], by simp [encodeFindResponse],
    by simp [encodeFindResponse], ?_⟩
  cases hfmt with
  | inl h => subst h; simp [encodeFindResponse]
  | inr h => subst h; simp [encodeFindResponse]

/-- Witness for C2 (amended) at a concrete query, time and match
list. -/
theorem claim_C2_witness :
    (("pickle" : String) = "" ∨ ("pickle" : String) = "pickle") ∧
    (encodeFindResponse "json" "a.*" false 1000
        [{ Path := "a.b", IsLeaf := true }] =
      .json [{ Path := "a.b", IsLeaf := true }] ∧
    encodeFindResponse "protobuf" "a.*" false 1000
        [{ Path := "a.b", IsLeaf := true }] =
      .protobuf "a.*" [{ Path := "a.b", IsLeaf := true }] ∧
    encodeFindResponse "protobuf3" "a.*" false 1000
        [{ Path := "a.b", IsLeaf := true }] =
      .protobuf "a.*" [{ Path := "a.b", IsLeaf := true }] ∧
    encodeFindResponse "pickle" "a.*" false 1000
        [{ Path := "a.b", IsLeaf := true }] =
      .pickle ([{ Path := "a.b", IsLeaf := true }].map
        fun m : GlobMatch =>
          .v1 m.IsLeaf m.Path { Start := 0, EndT := toInt32 (1000 + 60) })) :=
  ⟨Or.inr rfl,
    claim_C2 "a.*" "pickle" false 1000 [{ Path := "a.b", IsLeaf := true }]
      (Or.inr rfl)⟩

/-- When the absent-flag array covers every value position, the value
loop of `createRenderResponse` succeeds and produces the positionwise
choice between the sentinel and the numeric value. -/
theorem buildValues_eq (sentinel : RenderValue) (vs : List Float) :
    ∀ flags : List Bool, vs.length ≤ flags.length →
      buildValues sentinel vs flags =
        some (List.zipWith
          (fun v a => if a then sentinel else RenderValue.value v)
          vs flags) := by
  induction vs with
  | nil => intro flags _; simp [buildValues]
  | cons v vs ih =>
      intro flags h
      cases flags with
      | nil => simp at h
      | cons a flags' =>
          have h' : vs.length ≤ flags'.length := by simpa using h
          simp [buildValues, ih flags' h']

/-- Evaluating `createRenderResponse` on covered series: one entry per series, in
order, with the zipped value sequence. -/
theorem createRenderResponse_eq (sentinel : RenderValue)
    (metrics : List FetchMetric)
    (h : ∀ m ∈ metrics, m.Values.length ≤ m.IsAbsent.length) :
    createRenderResponse metrics sentinel =
      some (metrics.map fun m =>
        { Start := m.StartTime, Step := m.StepTime, EndT := m.StopTime,
          Name := m.Name,
          values := List.zipWith
            (fun v a => if a then sentinel else RenderValue.value v)
            m.Values m.IsAbsent }) := by
  induction metrics with
  | nil => rfl
  | cons m rest ih =>
      have hm := h m (by simp)
      have hrest : ∀ m' ∈ rest, m'.Values.length ≤ m'.IsAbsent.length :=
        fun m' hm' => h m' (List.mem_cons_of_mem _ hm')
      simp [createRenderResponse, buildValues_eq sentinel m.Values m.IsAbsent hm,
        ih hrest]

/-- C3: for JSON and pickle render serialization of series whose
absent-flag array covers all value positions, the produced entry for
each series has, at every position, the encoding's sentinel exactly
where the flag marks the point absent and the numeric value otherwise;
an absent point is never serialized as a numeric value (in particular
not as zero). -/
theorem claim_C3 (sentinel : RenderValue) (metrics : List FetchMetric)
    (i : Nat) (m : FetchMetric)
    (hs : sentinel = .jsonNull ∨ sentinel = .pickleNone)
    (hcov : ∀ m' ∈ metrics, m'.Values.length ≤ m'.IsAbsent.length)
    (hm : metrics[i]? = some m) :
    ∃ entries entry,
      createRenderResponse metrics sentinel = some entries ∧
      (sentinel = .jsonNull →
        renderEncode "json" metrics = some (.jsonR entries)) ∧
      (sentinel = .pickleNone →
        renderEncode "pickle" metrics = some (.pickleR entries) ∧
        renderEncode "" metrics = some (.pickleR entries)) ∧
      entries[i]? = some entry ∧
      entry.Name = m.Name ∧
      absentPointwise sentinel m entry.values := by
  have hmem : m ∈ metrics := by
    obtain ⟨hlt, heq⟩ := List.getElem?_eq_some.mp hm
    exact heq ▸ List.getElem_mem hlt
  have hcovm := hcov m hmem
  refine ⟨_,
    { Start := m.StartTime, Step := m.StepTime, EndT := m.StopTime,
      Name := m.Name,
      values := List.zipWith
        (fun v a => if a then sentinel else RenderValue.value v)
        m.Values m.IsAbsent },
    createRenderResponse_eq sentinel metrics hcov, ?_, ?_, ?_, rfl, ?_⟩
  · intro hsj
    subst hsj
    simp [renderEncode, createRenderResponse_eq _ metrics hcov]
  · intro hsp
    subst hsp
    constructor <;> simp [renderEncode, createRenderResponse_eq _ metrics hcov]
  · rw [List.getElem?_map, hm]
    rfl
  · refine ⟨?_, ?_, ?_⟩
    · simpa [List.length_zipWith] using Nat.min_eq_left hcovm
    · intro j v a hv ha
      rw [List.getElem?_zipWith_eq_some]
      exact ⟨v, a, hv, ha, rfl⟩
    · intro j hja x hx
      rw [List.getElem?_zipWith_eq_some] at hx
      obtain ⟨v', a', hv', ha', heq⟩ := hx
      rw [hja] at ha'
      cases ha'
      rw [if_pos rfl] at heq
      cases hs with
      | inl h => rw [h] at heq; cases heq
      | inr h => rw [h] at heq; cases heq

/-- Witness for C3 at a concrete series (`values = [1.5, 2.5]`, second
point absent) serialized with the JSON sentinel. -/
theorem claim_C3_witness :
    ((RenderValue.jsonNull = RenderValue.jsonNull ∨
      RenderValue.jsonNull = RenderValue.pickleNone) ∧
    (∀ m' ∈ [{ Name := "a.b", StartTime := 100, StopTime := 160,
               StepTime := 30, Values := [1.5, 2.5],
               IsAbsent := [false, true] : FetchMetric}],
      m'.Values.length ≤ m'.IsAbsent.length) ∧
    ([{ Name := "a.b", StartTime := 100, StopTime := 160, StepTime := 30,
        Values := [1.5, 2.5], IsAbsent := [false, true] : FetchMetric}][0]? =
      some { Name := "a.b", StartTime := 100, StopTime := 160,
             StepTime := 30, Values := [1.5, 2.5],
             IsAbsent := [false, true] })) ∧
    (∃ entries entry,
      createRenderResponse
          [{ Name := "a.b", StartTime := 100, StopTime := 160,
             StepTime := 30, Values := [1.5, 2.5],
             IsAbsent := [false, true] }] .jsonNull = some entries ∧
      (RenderValue.jsonNull = RenderValue.jsonNull →
        renderEncode "json"
            [{ Name := "a.b", StartTime := 100, StopTime := 160,
               StepTime := 30, Values := [1.5, 2.5],
               IsAbsent := [false, true] }] = some (.jsonR entries)) ∧
      (RenderValue.jsonNull = RenderValue.pickleNone →
        renderEncode "pickle"
            [{ Name := "a.b", StartTime := 100, StopTime := 160,
               StepTime := 30, Values := [1.5, 2.5],
               IsAbsent := [false, true] }] = some (.pickleR entries) ∧
        renderEncode ""
            [{ Name := "a.b", StartTime := 100, StopTime := 160,
               StepTime := 30, Values := [1.5, 2.5],
               IsAbsent := [false, true] }] = some (.pickleR entries)) ∧
      entries[0]? = some entry ∧
      entry.Name = ({ Name := "a.b", StartTime := 100, StopTime := 160,
                      StepTime := 30, Values := [1.5, 2.5],
                      IsAbsent := [false, true] : FetchMetric }).Name ∧
      absentPointwise .jsonNull
        { Name := "a.b", StartTime := 100, StopTime := 160, StepTime := 30,
          Values := [1.5, 2.5], IsAbsent := [false, true] }
        entry.values) :=
  ⟨⟨Or.inl rfl, by intro m' hm'; simp at hm'; subst hm'; exact by decide, rfl⟩,
    claim_C3 .jsonNull
      [{ Name := "a.b", StartTime := 100, StopTime := 160, StepTime := 30,
         Values := [1.5, 2.5], IsAbsent := [false, true] }] 0
      { Name := "a.b", StartTime := 100, StopTime := 160, StepTime := 30,
        Values := [1.5, 2.5], IsAbsent := [false, true] }
      (Or.inl rfl)
      (by intro m' hm'; simp at hm'; subst hm'; exact by decide) rfl⟩

/-- C8 evaluation: with the default `Buckets = 10` configuration (the
`timeBuckets` slice has 11 elements), a 100 ms request drives the loop
to bucket `-1` and the increment indexes `timeBuckets[-1]` — an
out-of-range runtime panic (`none`) — while a 10 ms request, which the
comment's delimiters `0, 50, 100, 200, ...` place in bucket 0, is
counted in the overflow bucket `timeBuckets[10]` instead (and logged as
a slow request).  The loop's comparison is inverted relative to the
in-code comment and the per-bucket graphite registration: every
duration ≥ 50 ms yields index `-1`, every shorter one the overflow
index. -/
theorem claim_C8_eval :
    bucketLoopAux 100 11 0 = -1 ∧
    bucketLoopAux 10 11 0 = 11 ∧
    bucketRequestTimes 100 10 (List.replicate 11 0) = none ∧
    bucketRequestTimes 10 10 (List.replicate 11 0) =
      some (List.replicate 10 (0 : Int) ++ [1]) := by
  refine ⟨by decide, by decide, by decide, by decide⟩

/-- C9 evaluation: for a two-backend metadata mapping, the encoded
protobuf `Responses` list has FOUR entries, not two: the two
zero-valued entries pre-allocated by
`make([]pb3.ServerInfoResponse, len(infos))` survive in front of the
appended ones, and — because every appended entry stores `&i`, the
shared loop variable — both appended entries carry the metadata of the
last-iterated backend, so `backendA` is paired with `backendB`'s
metadata. -/
theorem claim_C9_eval :
    buildInfoResponses
        [("backendA", { name := "A", maxRetention := 1 }),
         ("backendB", { name := "B", maxRetention := 2 })] =
      [{ Server := "", Info := none },
       { Server := "", Info := none },
       { Server := "backendA", Info := some { name := "B", maxRetention := 2 } },
       { Server := "backendB", Info := some { name := "B", maxRetention := 2 } }] ∧
    (buildInfoResponses
        [("backendA", { name := "A", maxRetention := 1 }),
         ("backendB", { name := "B", maxRetention := 2 })]).length = 4 ∧
    (infoHandler { target := "x.y", format := "protobuf" } true
        { infos := [("backendA", { name := "A", maxRetention := 1 }),
                    ("backendB", { name := "B", maxRetention := 2 })],
          stats := statsZero, err := none } true metricsZero).body =
      some (.protobufI
        [{ Server := "", Info := none },
         { Server := "", Info := none },
         { Server := "backendA", Info := some { name := "B", maxRetention := 2 } },
         { Server := "backendB", Info := some { name := "B", maxRetention := 2 } }]) := by
  refine ⟨by decide, by decide, by decide⟩

end Carbonzipper
